import Mathlib

set_option maxRecDepth 8000

/-!
Shallow embedding of `src/WalletAnalysis.tsx` (SolAiOfficial/Sol-Ai-Agent).

The component is a pure render function from a props snapshot to a view
tree, plus one inlined parser: the swaps tab splits the `swapActivity`
string on `"\n\n"`, splits each block on `"\n"`, and reads the block's
lines positionally with JavaScript `String.prototype.split(": ")`.

Modelling conventions:
* JavaScript strings are Lean `String`s (code points; the sources never
  exercise surrogate-pair behaviour).
* JavaScript numbers are modelled as `Int`: every claim about them depends
  only on ordering against zero and on `toFixed` printing of integral
  values, never on floating-point rounding.
* `undefined` is `Option.none`; an expression that would throw a
  `TypeError` (reading `.split` of `undefined`) makes the surrounding
  computation return `none`.
* JSX output is modelled as explicit view structures; a child expression
  that is `undefined` renders nothing and is kept as `none`.
-/

namespace SolAi

/-- Core of JavaScript `String.prototype.split` with a non-empty string
separator, over explicit character lists: scan left to right, at each
position either consume a leftmost occurrence of the separator (ending the
current segment) or move one character into the current segment.  `fuel`
only bounds the recursion; each step consumes at least one character, so
any `fuel > s.length` yields the true result. -/
def splitCharsAux : Nat → List Char → List Char → List (List Char)
  | 0, _, s => [s]
  | _ + 1, _, [] => [[]]
  | fuel + 1, sep, c :: cs =>
    if sep.isPrefixOf (c :: cs) && !sep.isEmpty then
      [] :: splitCharsAux fuel sep ((c :: cs).drop sep.length)
    else
      match splitCharsAux fuel sep cs with
      | [] => [[c]]
      | g :: gs => (c :: g) :: gs

/-- JavaScript `s.split(sep)` for a non-empty string separator, as used by
the component (`"\n\n"`, `"\n"`, `": "`).  Splits on every non-overlapping
occurrence, leftmost first; a string with no occurrence yields the
one-element list `[s]`. -/
def jsSplit (s sep : String) : List String :=
  (splitCharsAux (s.data.length + 1) sep.data s.data).map (fun l => String.mk l)

/-- JavaScript `s.startsWith(pre)`. -/
def jsStartsWith (s pre : String) : Bool :=
  pre.data.isPrefixOf s.data

/-- JavaScript `x || fallback` on a possibly-undefined string: `undefined`
and the empty string are falsy. -/
def jsOrElse (v : Option String) (fallback : String) : String :=
  match v with
  | none => fallback
  | some s => if s = "" then fallback else s

/-- JavaScript `Number.prototype.toFixed(d)` for `d > 0`, restricted to the
integral values our `Int` model carries. -/
def jsToFixed (x : Int) (d : Nat) : String :=
  if d = 0 then toString x else toString x ++ "." ++ String.mk (List.replicate d '0')

/-- JavaScript `symbol.slice(0, 2).toUpperCase()`: the first two characters
(or all of a shorter string), each uppercased. -/
def jsSliceTwoUpper (s : String) : String :=
  String.mk ((s.data.take 2).map Char.toUpper)

/-! ## Data model: the TypeScript interfaces of `WalletAnalysis.tsx` -/

/-- One entry of `Transaction.balanceChange`. -/
structure BalanceChange where
  address : String
  amount : Int
  decimals : Int
  logoURI : String
  name : String
  symbol : String
  uiAmount : Int
deriving DecidableEq, Repr

/-- The `contractLabel` field of `interface Transaction`. -/
structure ContractLabel where
  address : String
  icon : String
  name : String
deriving DecidableEq, Repr

/-- `interface Transaction`. -/
structure Transaction where
  balanceChange : List BalanceChange
  blockNumber : Int
  blockTime : String
  contractLabel : ContractLabel
  fee : Int
  formattedBlockTime : String
  from_ : String   -- the TS field `from` (`from` is a Lean keyword)
  mainAction : String
  status : Bool
  to_ : String     -- the TS field `to` (`to` is a Lean keyword)
  txHash : String
deriving DecidableEq, Repr

/-- `interface Token`. -/
structure Token where
  address : String
  balance : Int
  chainId : String
  decimals : Int
  logoURI : String
  name : String
  priceUsd : Int
  symbol : String
  uiAmount : Int
  valueUsd : Int
deriving DecidableEq, Repr

/-- `interface WalletAnalysisProps`. -/
structure WalletAnalysisProps where
  totalValue : Int
  tokenCount : Int
  topTokens : List Token
  recentTransactions : List Transaction
  swapActivity : String
  overallPNL : String
  pnlPercentage : String
  pnlByToken : List (String × String)
  analysis : String
deriving DecidableEq, Repr

/-! ## TokenLogo -/

/-- The logo URL the `TokenLogo` component builds from the symbol. -/
def tokenLogoUrl (symbol : String) : String :=
  "https://raw.githubusercontent.com/solana-labs/token-list/main/assets/mainnet/"
    ++ symbol ++ "/logo.png"

/-- What one `TokenLogo` instance renders: either the `<img>` or, once its
per-instance `error` state is set by `onError`, the generated badge. -/
inductive TokenLogoView where
  | image (src alt : String)
  | fallbackBadge (text : String)
deriving DecidableEq, Repr

/-- The `TokenLogo` component as a function of its prop and its own
`useState` error flag (one flag per mounted instance). -/
def tokenLogo (symbol : String) (error : Bool) : TokenLogoView :=
  if error then
    .fallbackBadge (jsSliceTwoUpper symbol)
  else
    .image (jsOrElse (some (tokenLogoUrl symbol)) "/placeholder.svg") (symbol ++ " logo")

/-! ## The swap-activity parse (swaps tab, lines 360-394) -/

/-- The empty-state sentinel the swaps tab compares against. -/
def sentinel : String := "No swap activity data available."

/-- One parsed swap row.  Each field is `swapDetails[k].split(": ")[1]`;
`Option` because destructuring a too-short split result yields
`undefined`. -/
structure SwapRecord where
  timestamp : Option String
  fromToken : Option String
  toToken : Option String
  amount : Option String
  usdEquivalent : Option String
deriving DecidableEq, Repr

/-- `const [, x] = line.split(": ")`: element 1 of the full split, i.e. the
text between the first `": "` and the next `": "` occurrence (or the end of
the line); `none` when the line has no `": "` at all. -/
def jsSplitSecond (line : String) : Option String :=
  (jsSplit line ": ")[1]?

/-- The body of the per-block arrow function, on the block's line list
`swap.split("\n")`: `[swapHeader, ...swapDetails]` followed by positional
reads of `swapDetails[0]` … `swapDetails[4]`.  With fewer than six lines
one of those reads is `undefined` and `.split(": ")` throws a `TypeError`,
modelled as `none`. -/
def parseSwapLines : List String → Option SwapRecord
  | _header :: l1 :: l2 :: l3 :: l4 :: l5 :: _ =>
    some { timestamp := jsSplitSecond l1
           fromToken := jsSplitSecond l2
           toToken := jsSplitSecond l3
           amount := jsSplitSecond l4
           usdEquivalent := jsSplitSecond l5 }
  | _ => none

/-- Parse of one swap block (one element of `swapActivity.split("\n\n")`). -/
def parseSwapBlock (swap : String) : Option SwapRecord :=
  parseSwapLines (jsSplit swap "\n")

/-- The `.map` over the block list.  A thrown `TypeError` in any block
aborts the whole render, so the result is `none` as soon as one block
fails; otherwise one record per block, in block order. -/
def parseBlocks : List String → Option (List SwapRecord)
  | [] => some []
  | b :: bs =>
    match parseSwapBlock b, parseBlocks bs with
    | some r, some rs => some (r :: rs)
    | _, _ => none

/-- The swap records the swaps tab derives from `swapActivity`: the exact
sentinel produces no records at all (the branch never splits), anything
else goes through the block-splitting map. -/
def parseSwapActivity (swapActivity : String) : Option (List SwapRecord) :=
  if swapActivity = sentinel then some [] else parseBlocks (jsSplit swapActivity "\n\n")

/-- What the swaps tab renders: the sentinel paragraph, or the table whose
rows are the parsed records (`none` rows = the render threw). -/
inductive SwapsTabView where
  | sentinelMessage (text : String)
  | table (rows : Option (List SwapRecord))
deriving DecidableEq, Repr

/-- The swaps-tab branch: `swapActivity === "No swap activity data
available."` selects the paragraph, everything else the table. -/
def swapsTabView (swapActivity : String) : SwapsTabView :=
  if swapActivity = sentinel then .sentinelMessage swapActivity
  else .table (parseBlocks (jsSplit swapActivity "\n\n"))

/-! ## Sign classification and the overview cards -/

/-- The spec's `SignClass` enumeration. -/
inductive SignClass where
  | positive
  | negative
  | neutral
deriving DecidableEq, Repr

/-- The sign rule the component applies inline at every PNL site
(`value.startsWith("-") ? … : …`): `negative` when the string starts with
`"-"`, `positive` otherwise. -/
def classifySign (s : String) : SignClass :=
  if jsStartsWith s "-" then .negative else .positive

/-- The icons the overview cards pass to `DataCard`. -/
inductive IconKind where
  | arrowUpRight
  | arrowDownRight
  | activity
  | dollarSign
  | coins
deriving DecidableEq, Repr

/-- The `color` prop values the overview cards pass to `DataCard`. -/
inductive ColorKind where
  | green
  | purple
  | red
deriving DecidableEq, Repr

/-- The props of one rendered `DataCard`. -/
structure DataCardModel where
  title : String
  value : String
  icon : IconKind
  color : ColorKind
deriving DecidableEq, Repr

/-- The "Overall PNL" card: icon and color both from
`overallPNL.startsWith("-")`. -/
def overallPnlCard (overallPNL : String) : DataCardModel :=
  { title := "Overall PNL"
    value := overallPNL
    icon := if jsStartsWith overallPNL "-" then .arrowDownRight else .arrowUpRight
    color := if jsStartsWith overallPNL "-" then .red else .green }

/-- The "PNL %" card: fixed `Activity` icon, color from
`pnlPercentage.startsWith("-")`. -/
def pnlPercentCard (pnlPercentage : String) : DataCardModel :=
  { title := "PNL %"
    value := pnlPercentage
    icon := .activity
    color := if jsStartsWith pnlPercentage "-" then .red else .green }

/-- The four overview `DataCard`s, in render order. -/
def overviewCards (p : WalletAnalysisProps) : List DataCardModel :=
  [ { title := "Total Value", value := "$" ++ jsToFixed p.totalValue 2
      icon := .dollarSign, color := .green },
    { title := "Token Count", value := toString p.tokenCount
      icon := .coins, color := .purple },
    overallPnlCard p.overallPNL,
    pnlPercentCard p.pnlPercentage ]

/-- One tile of the "PNL Breakdown by Token" grid: label, amount text, and
the color class from `item.amount.startsWith("-")`. -/
structure PnlTokenView where
  token : String
  amount : String
  colorClass : String
deriving DecidableEq, Repr

/-- Render of one `pnlByToken` entry. -/
def pnlTokenView (item : String × String) : PnlTokenView :=
  { token := item.1
    amount := item.2
    colorClass := if jsStartsWith item.2 "-" then "text-red-400" else "text-green-400" }

/-! ## Tokens and transactions tabs -/

/-- One row of the tokens table.  The `Token` interface fields are
non-optional, so `token.uiAmount?.toFixed(4) || "N/A"` always yields the
formatted (truthy) string; the `||` fallbacks on name/symbol fire on the
empty string. -/
structure TokenRowView where
  logoSrc : String
  nameText : String
  symbolText : String
  balanceText : String
  valueText : String
  priceText : String
deriving DecidableEq, Repr

/-- Render of one `topTokens` row. -/
def tokenRow (t : Token) : TokenRowView :=
  { logoSrc := jsOrElse (some t.logoURI) "/placeholder.svg"
    nameText := jsOrElse (some t.name) "Unknown Token"
    symbolText := jsOrElse (some t.symbol) "N/A"
    balanceText := jsToFixed t.uiAmount 4
    valueText := "$" ++ jsToFixed t.valueUsd 2
    priceText := "$" ++ jsToFixed t.priceUsd 4 }

/-- The tokens tab: the table, or the literal empty message. -/
inductive TokensTabView where
  | table (rows : List TokenRowView)
  | emptyMessage (text : String)
deriving DecidableEq, Repr

/-- `topTokens.length > 0 ? <Table…> : <p>No tokens found…</p>`. -/
def tokensTabView (topTokens : List Token) : TokensTabView :=
  if topTokens.length > 0 then .table (topTokens.map tokenRow)
  else .emptyMessage "No tokens found in this wallet."

/-- One rendered transaction card.  `symbolText` and `amountText` come from
`transaction.balanceChange[0]?.…`; with an empty `balanceChange` the
optional chain short-circuits to `undefined` (`none`) and React renders
nothing for them — in particular `?.uiAmount.toFixed(6)` does not throw. -/
structure TransactionRowView where
  mainAction : String
  logoSrc : String
  symbolText : Option String
  amountText : Option String
deriving DecidableEq, Repr

/-- Render of one `recentTransactions` entry. -/
def transactionRow (t : Transaction) : TransactionRowView :=
  { mainAction := t.mainAction
    logoSrc := jsOrElse (t.balanceChange.head?.map (fun bc => bc.logoURI)) "/placeholder.svg"
    symbolText := t.balanceChange.head?.map (fun bc => bc.symbol)
    amountText := t.balanceChange.head?.map (fun bc => jsToFixed bc.uiAmount 6) }

/-! ## The component -/

/-- The tabbed view's render-ready content, one slot per tab.  The PNL
breakdown grid is only mounted when `pnlByToken.length > 0`. -/
structure TabbedView where
  overview : List DataCardModel
  pnlBreakdown : Option (List PnlTokenView)
  tokens : TokensTabView
  transactions : List TransactionRowView
  swaps : SwapsTabView
deriving DecidableEq, Repr

/-- Assembly of all four tabs from the props. -/
def assembleTabs (p : WalletAnalysisProps) : TabbedView :=
  { overview := overviewCards p
    pnlBreakdown :=
      if p.pnlByToken.length > 0 then some (p.pnlByToken.map pnlTokenView) else none
    tokens := tokensTabView p.topTokens
    transactions := p.recentTransactions.map transactionRow
    swaps := swapsTabView p.swapActivity }

/-- `const hasData = totalValue > 0 || tokenCount > 0 || topTokens.length >
0 || recentTransactions.length > 0`. -/
def hasData (p : WalletAnalysisProps) : Bool :=
  decide (p.totalValue > 0) || decide (p.tokenCount > 0)
    || decide (p.topTokens.length > 0) || decide (p.recentTransactions.length > 0)

/-- The component's output: the early-return "No Portfolio Data Available"
block (which carries no tab content at all), or the tabbed view. -/
inductive WalletView where
  | noData
  | tabbed (tabs : TabbedView)
deriving DecidableEq, Repr

/-- `WalletAnalysis` as a function of its props (the `activeTab` state only
selects which already-assembled tab is visible and is not part of the
data-to-view transform). -/
def walletAnalysisView (p : WalletAnalysisProps) : WalletView :=
  if hasData p then .tabbed (assembleTabs p) else .noData

/-- Concatenation with a separator (JavaScript `Array.prototype.join`),
used to state what "everything after the first separator" means. -/
def joinSep (sep : String) : List String → String
  | [] => ""
  | [x] => x
  | x :: xs => x ++ sep ++ joinSep sep xs

/-- Modelled from the spec's words, for comparison with the code's
`jsSplitSecond`: "The value is everything after the first `\": \"`
separator", i.e. the whole tail of the line past its first `": "`,
further occurrences of `": "` included. -/
def specValueAfterFirstSep (line : String) : Option String :=
  match jsSplit line ": " with
  | _key :: rest@(_ :: _) => some (joinSep ": " rest)
  | _ => none

/-! ## Helper lemmas -/

theorem splitCharsAux_ne_nil (fuel : Nat) (sep s : List Char) :
    splitCharsAux fuel sep s ≠ [] := by
  match fuel, s with
  | 0, s => simp [splitCharsAux]
  | _ + 1, [] => simp [splitCharsAux]
  | fuel + 1, c :: cs =>
    simp only [splitCharsAux]
    split
    · simp
    · split <;> simp

/-- A JavaScript split never yields an empty array. -/
theorem jsSplit_ne_nil (s sep : String) : jsSplit s sep ≠ [] := by
  unfold jsSplit
  simp only [ne_eq, List.map_eq_nil_iff]
  exact splitCharsAux_ne_nil _ _ _

/-- Character-level counterpart of `joinSep`. -/
def joinChars (sep : List Char) : List (List Char) → List Char
  | [] => []
  | [x] => x
  | x :: xs => x ++ sep ++ joinChars sep xs

theorem joinChars_cons_cons (sep x y : List Char) (xs : List (List Char)) :
    joinChars sep (x :: y :: xs) = x ++ sep ++ joinChars sep (y :: xs) := rfl

/-- Splitting and rejoining with the separator restores the input: the
split really decomposes the string at every separator occurrence. -/
theorem splitCharsAux_join (fuel : Nat) (sep s : List Char)
    (hsep : sep ≠ []) (hfuel : s.length < fuel) :
    joinChars sep (splitCharsAux fuel sep s) = s := by
  induction fuel generalizing s with
  | zero => omega
  | succ fuel ih =>
    cases s with
    | nil => rfl
    | cons c cs =>
      rw [splitCharsAux]
      by_cases hpre : sep.isPrefixOf (c :: cs) && !sep.isEmpty
      · rw [if_pos hpre]
        have hpre' : sep <+: (c :: cs) :=
          List.isPrefixOf_iff_prefix.mp (Bool.and_elim_left hpre)
        obtain ⟨t, ht⟩ := hpre'
        have hslen : sep.length ≥ 1 := by
          cases sep with
          | nil => exact absurd rfl hsep
          | cons a as => simp
        have hdrop : (c :: cs).drop sep.length = t := by
          rw [← ht, List.drop_left]
        have hlt : ((c :: cs).drop sep.length).length < fuel := by
          rw [List.length_drop]
          have : (c :: cs).length ≥ 1 := by simp
          omega
        have hrec := ih ((c :: cs).drop sep.length) hlt
        cases hg : splitCharsAux fuel sep ((c :: cs).drop sep.length) with
        | nil => exact absurd hg (splitCharsAux_ne_nil _ _ _)
        | cons g gs =>
          rw [hg] at hrec
          rw [joinChars_cons_cons, hrec, hdrop, List.nil_append, ← ht]
      · rw [if_neg hpre]
        have hlt : cs.length < fuel := by
          simp only [List.length_cons] at hfuel
          omega
        have hrec := ih cs hlt
        cases hg : splitCharsAux fuel sep cs with
        | nil => exact absurd hg (splitCharsAux_ne_nil _ _ _)
        | cons g gs =>
          rw [hg] at hrec
          cases gs with
          | nil =>
            simp only [joinChars] at hrec ⊢
            rw [hrec]
          | cons g2 gs2 =>
            rw [joinChars_cons_cons] at hrec ⊢
            rw [show (c :: g) ++ sep ++ joinChars sep (g2 :: gs2) =
              c :: (g ++ sep ++ joinChars sep (g2 :: gs2)) by simp, hrec]

theorem joinSep_map_mk (sep : List Char) (chunks : List (List Char)) :
    joinSep (String.mk sep) (chunks.map fun l => String.mk l) =
      String.mk (joinChars sep chunks) := by
  induction chunks with
  | nil => rfl
  | cons x t ih =>
    cases t with
    | nil => rfl
    | cons y xs =>
      show (String.mk x) ++ (String.mk sep) ++
          joinSep (String.mk sep) ((y :: xs).map fun l => String.mk l) =
        String.mk (x ++ sep ++ joinChars sep (y :: xs))
      rw [ih]
      rfl

/-- String-level round trip: `jsSplit` decomposes `s` at every occurrence
of the (non-empty) separator and `joinSep` restores it. -/
theorem jsSplit_join (s sep : String) (h : sep ≠ "") :
    joinSep sep (jsSplit s sep) = s := by
  obtain ⟨sd⟩ := sep
  obtain ⟨sl⟩ := s
  have hd : sd ≠ [] := by
    intro hh
    subst hh
    exact h rfl
  rw [jsSplit, joinSep_map_mk, splitCharsAux_join _ _ _ hd (by simp)]

/-- `specValueAfterFirstSep` is what the spec says it is: when a line
splits as `key :: rest` with a non-empty `rest`, the line is literally
`key ++ ": " ++ tail` and the modelled value is that whole tail —
everything after the first `": "`. -/
theorem specValueAfterFirstSep_correct (l k : String) (rest : List String)
    (h : jsSplit l ": " = k :: rest) (hr : rest ≠ []) :
    l = k ++ ": " ++ joinSep ": " rest ∧
    specValueAfterFirstSep l = some (joinSep ": " rest) := by
  cases rest with
  | nil => exact absurd rfl hr
  | cons r rs =>
    constructor
    · have hj := jsSplit_join l ": " (by decide)
      rw [h] at hj
      exact hj.symm
    · rw [specValueAfterFirstSep, h]

/-- A block of fewer than six lines falls through every positional pattern:
one of `swapDetails[0] … swapDetails[4]` is `undefined` and the render
throws, i.e. the block parse is `none`. -/
theorem parseSwapLines_eq_none (ls : List String) (h : ls.length < 6) :
    parseSwapLines ls = none := by
  match ls, h with
  | [], _ => rfl
  | [_], _ => rfl
  | [_, _], _ => rfl
  | [_, _, _], _ => rfl
  | [_, _, _, _], _ => rfl
  | [_, _, _, _, _], _ => rfl
  | _ :: _ :: _ :: _ :: _ :: _ :: _, h => simp at h; omega

/-- A block with at least six lines always yields a record. -/
theorem parseSwapLines_isSome (ls : List String) (h : 6 ≤ ls.length) :
    (parseSwapLines ls).isSome := by
  match ls, h with
  | _ :: _ :: _ :: _ :: _ :: _ :: _, _ => rfl
  | [], h | [_], h | [_, _], h | [_, _, _], h | [_, _, _, _], h | [_, _, _, _, _], h =>
    simp at h

theorem parseBlocks_eq_some_nil_iff (bs : List String) :
    parseBlocks bs = some [] ↔ bs = [] := by
  cases bs with
  | nil => simp [parseBlocks]
  | cons b rest =>
    simp only [parseBlocks]
    cases hb : parseSwapBlock b <;> cases hrest : parseBlocks rest <;> simp

/-- With every block parse succeeding, the map yields one record per block
and in block order. -/
theorem parseBlocks_of_isSome (bs : List String)
    (h : ∀ b ∈ bs, (parseSwapBlock b).isSome) :
    ∃ rs, parseBlocks bs = some rs ∧ rs.length = bs.length ∧
      ∀ i : Nat, rs[i]? = bs[i]?.bind parseSwapBlock := by
  induction bs with
  | nil => exact ⟨[], rfl, rfl, fun i => by simp⟩
  | cons b rest ih =>
    obtain ⟨r, hr⟩ := Option.isSome_iff_exists.mp (h b (List.mem_cons_self b rest))
    obtain ⟨rs, hrs, hlen, hget⟩ := ih (fun x hx => h x (List.mem_cons_of_mem _ hx))
    refine ⟨r :: rs, by simp [parseBlocks, hr, hrs], by simp [hlen], fun i => ?_⟩
    cases i with
    | zero => simp [hr]
    | succ j => simpa using hget j

/-- One failing block aborts the whole map. -/
theorem parseBlocks_eq_none_of_mem (b : String) (bs : List String)
    (hmem : b ∈ bs) (hb : parseSwapBlock b = none) :
    parseBlocks bs = none := by
  induction bs with
  | nil => cases hmem
  | cons x xs ih =>
    rcases List.mem_cons.mp hmem with h | h
    · subst h
      cases hxs : parseBlocks xs <;> simp [parseBlocks, hb, hxs]
    · cases hx : parseSwapBlock x <;> simp [parseBlocks, hx, ih h]

/-- `s.startsWith("-")` holds exactly when the first character is `'-'`. -/
theorem jsStartsWith_dash_iff (s : String) :
    jsStartsWith s "-" = true ↔ s.data.head? = some '-' := by
  unfold jsStartsWith
  rw [show ("-").data = ['-'] from rfl, List.isPrefixOf_iff_prefix]
  cases s.data with
  | nil =>
    constructor
    · intro h
      exact absurd (List.eq_nil_of_prefix_nil h) (by intro h'; cases h')
    · intro h; cases h
  | cons c cs =>
    rw [List.cons_prefix_cons, List.head?_cons]
    constructor
    · intro h
      rw [h.1]
    · intro h
      have hc : c = '-' := by injection h
      exact ⟨hc.symm, List.nil_prefix⟩

theorem classifySign_eq_negative_iff (s : String) :
    classifySign s = .negative ↔ jsStartsWith s "-" = true := by
  unfold classifySign
  cases jsStartsWith s "-" <;> simp

/-- The `hasData` guard, spelt out: every numeric test is strict. -/
theorem hasData_eq_true_iff (p : WalletAnalysisProps) :
    hasData p = true ↔
      (0 < p.totalValue ∨ 0 < p.tokenCount ∨
        p.topTokens ≠ [] ∨ p.recentTransactions ≠ []) := by
  simp [hasData, List.length_pos, or_assoc]

/-! ## The claims -/

/-- C1: for every well-formed swap-activity input (not the sentinel) whose
blocks — the components of splitting on one blank line `"\n\n"` — each have
a header line followed by at least 5 `key: value` lines, the parse
succeeds and yields exactly one `SwapRecord` per block, the i-th record
coming from the i-th block: no reordering, no deduplication, no merging. -/
theorem C1_one_record_per_block_in_input_order (s : String)
    (hs : s ≠ sentinel)
    (hwf : ∀ b ∈ jsSplit s "\n\n",
      6 ≤ (jsSplit b "\n").length ∧
        ∀ l ∈ (jsSplit b "\n").drop 1, 2 ≤ (jsSplit l ": ").length) :
    ∃ rs, parseSwapActivity s = some rs ∧
      rs.length = (jsSplit s "\n\n").length ∧
      ∀ i : Nat, rs[i]? = (jsSplit s "\n\n")[i]?.bind parseSwapBlock := by
  have h : ∀ b ∈ jsSplit s "\n\n", (parseSwapBlock b).isSome := by
    intro b hb
    exact parseSwapLines_isSome _ (hwf b hb).1
  obtain ⟨rs, h1, h2, h3⟩ := parseBlocks_of_isSome _ h
  exact ⟨rs, by rw [parseSwapActivity, if_neg hs]; exact h1, h2, h3⟩

/-- A concrete two-block input for C1's witness. -/
def c1Input : String :=
  "Swap 1 hour ago\nTimestamp: 2024-01-01\nFrom: SOL\nTo: USDC\nAmount: 10\nUSD Equivalent: $150.00\n\n"
    ++ "Swap 2 hours ago\nTimestamp: 2024-01-01\nFrom: USDC\nTo: RAY\nAmount: 5\nUSD Equivalent: $75.00"

/-- C1 witness: the hypotheses hold of a concrete two-block input and the
theorem applies to it. -/
theorem C1_witness :
    ∃ rs, parseSwapActivity c1Input = some rs ∧
      rs.length = (jsSplit c1Input "\n\n").length ∧
      ∀ i : Nat, rs[i]? = (jsSplit c1Input "\n\n")[i]?.bind parseSwapBlock :=
  C1_one_record_per_block_in_input_order c1Input (by decide) (by decide)

/-- A concrete block whose timestamp value itself contains `": "`. -/
def c2Block : String :=
  "Swap 1 hour ago\nTimestamp: 2024-01-01: 12:00 UTC\nFrom: SOL\nTo: USDC\nAmount: 10\nUSD Equivalent: $150.00"

/-- C2 counterexample: on the line `"Timestamp: 2024-01-01: 12:00 UTC"`,
everything after the first `": "` is `"2024-01-01: 12:00 UTC"`, but the
code extracts `split(": ")[1] = "2024-01-01"` — a value that itself
contains `": "` is truncated, not captured in full. -/
theorem C2_counterexample_value_with_separator_truncated :
    "Timestamp: 2024-01-01: 12:00 UTC" =
      "Timestamp" ++ ": " ++ "2024-01-01: 12:00 UTC" ∧
    (parseSwapBlock c2Block).map (fun r => r.timestamp) = some (some "2024-01-01") ∧
    specValueAfterFirstSep "Timestamp: 2024-01-01: 12:00 UTC" =
      some "2024-01-01: 12:00 UTC" ∧
    (some "2024-01-01" : Option String) ≠ some "2024-01-01: 12:00 UTC" := by
  decide

/-- C2 (amended): the parser reads lines 1-5 positionally as timestamp,
from-token, to-token, amount and USD-equivalent, and each extracted value
is element 1 of splitting the whole line on every `": "` occurrence — the
text between the first `": "` and the next one (or the end of the line).
It equals everything after the first `": "` exactly on lines with a single
`": "` occurrence, i.e. when the value itself contains no `": "`. -/
theorem C2_amended_positional_fields_between_separators
    (b hd l1 l2 l3 l4 l5 : String) (rest : List String)
    (hb : jsSplit b "\n" = hd :: l1 :: l2 :: l3 :: l4 :: l5 :: rest) :
    parseSwapBlock b = some
      { timestamp := jsSplitSecond l1, fromToken := jsSplitSecond l2,
        toToken := jsSplitSecond l3, amount := jsSplitSecond l4,
        usdEquivalent := jsSplitSecond l5 } ∧
    ∀ l k v : String, jsSplit l ": " = [k, v] →
      jsSplitSecond l = some v ∧ specValueAfterFirstSep l = some v := by
  constructor
  · rw [parseSwapBlock, hb]
    rfl
  · intro l k v hl
    rw [jsSplitSecond, specValueAfterFirstSep, hl]
    exact ⟨rfl, rfl⟩

/-- A concrete well-formed block for C2's witness. -/
def c2WitnessBlock : String :=
  "Swap 1 hour ago\nTimestamp: 2024-01-01\nFrom: SOL\nTo: USDC\nAmount: 10\nUSD Equivalent: $150.00"

/-- C2 witness: the amended statement applied to a concrete block. -/
theorem C2_witness :
    parseSwapBlock c2WitnessBlock = some
      { timestamp := jsSplitSecond "Timestamp: 2024-01-01",
        fromToken := jsSplitSecond "From: SOL",
        toToken := jsSplitSecond "To: USDC",
        amount := jsSplitSecond "Amount: 10",
        usdEquivalent := jsSplitSecond "USD Equivalent: $150.00" } :=
  (C2_amended_positional_fields_between_separators c2WitnessBlock
    "Swap 1 hour ago" "Timestamp: 2024-01-01" "From: SOL" "To: USDC"
    "Amount: 10" "USD Equivalent: $150.00" [] (by decide)).1

/-- C3: the parse yields the empty record sequence exactly when the whole
input is the literal sentinel `"No swap activity data available."`; on the
sentinel the caller renders the sentinel paragraph directly (no splitting
at all), and on any other input the swaps tab takes the block-splitting
path. -/
theorem C3_sentinel_iff_empty_sequence (s : String) :
    (parseSwapActivity s = some [] ↔ s = sentinel) ∧
    (swapsTabView s = .sentinelMessage sentinel ↔ s = sentinel) ∧
    (s ≠ sentinel → swapsTabView s = .table (parseBlocks (jsSplit s "\n\n"))) := by
  refine ⟨⟨fun h => ?_, fun h => by rw [parseSwapActivity, if_pos h]⟩,
    ⟨fun h => ?_, fun h => by rw [swapsTabView, if_pos h, h]⟩,
    fun h => by rw [swapsTabView, if_neg h]⟩
  · by_contra hs
    rw [parseSwapActivity, if_neg hs] at h
    exact jsSplit_ne_nil s "\n\n" ((parseBlocks_eq_some_nil_iff _).mp h)
  · by_contra hs
    rw [swapsTabView, if_neg hs] at h
    cases h

/-- C3 witness: the equivalence instantiated at the sentinel itself. -/
theorem C3_witness :
    (parseSwapActivity sentinel = some [] ↔ sentinel = sentinel) ∧
    (swapsTabView sentinel = .sentinelMessage sentinel ↔ sentinel = sentinel) ∧
    (sentinel ≠ sentinel →
      swapsTabView sentinel = .table (parseBlocks (jsSplit sentinel "\n\n"))) :=
  C3_sentinel_iff_empty_sequence sentinel

/-- C7: a non-sentinel block with fewer than six lines (header plus fewer
than 5 key-value lines) makes the positional read fail — the block parse is
`none` (the `undefined.split` TypeError), and any block list containing it
parses to `none` as a whole: the block is neither skipped nor turned into a
partial record. -/
theorem C7_short_block_fails_whole_parse (b : String)
    (h : (jsSplit b "\n").length < 6) :
    parseSwapBlock b = none ∧
    ∀ bs, b ∈ bs → parseBlocks bs = none := by
  have h1 : parseSwapBlock b = none := parseSwapLines_eq_none _ h
  exact ⟨h1, fun bs hb => parseBlocks_eq_none_of_mem b bs hb h1⟩

/-- C7 witness: a concrete two-line block fails, alone and inside a list. -/
theorem C7_witness :
    parseSwapBlock "Swap 1 hour ago\nTimestamp: 2024-01-01" = none ∧
    ∀ bs, "Swap 1 hour ago\nTimestamp: 2024-01-01" ∈ bs → parseBlocks bs = none :=
  C7_short_block_fails_whole_parse "Swap 1 hour ago\nTimestamp: 2024-01-01" (by decide)

/-- C4: sign classification is total, returns `negative` exactly when the
string's first character is `'-'` and `positive` otherwise (never
`neutral`); `classifySign "0.00" = positive`, `classifySign "-5.2%" =
negative`; and the very same rule drives the Overall-PNL card's color and
icon, the PNL-% card's color, and every per-token PNL amount's color
class. -/
theorem C4_sign_rule_uniform (s o q : String) (item : String × String) :
    (classifySign s = .negative ↔ s.data.head? = some '-') ∧
    classifySign s ≠ .neutral ∧
    classifySign "0.00" = .positive ∧
    classifySign "-5.2%" = .negative ∧
    (overallPnlCard o).color =
      (if classifySign o = .negative then .red else .green) ∧
    (overallPnlCard o).icon =
      (if classifySign o = .negative then .arrowDownRight else .arrowUpRight) ∧
    (pnlPercentCard q).color =
      (if classifySign q = .negative then .red else .green) ∧
    (pnlTokenView item).colorClass =
      (if classifySign item.2 = .negative then "text-red-400" else "text-green-400") := by
  refine ⟨?_, ?_, by decide, by decide, ?_, ?_, ?_, ?_⟩
  · rw [classifySign_eq_negative_iff]
    exact jsStartsWith_dash_iff s
  · unfold classifySign
    cases jsStartsWith s "-" <;> simp
  · simp only [overallPnlCard, classifySign_eq_negative_iff]
  · simp only [overallPnlCard, classifySign_eq_negative_iff]
  · simp only [pnlPercentCard, classifySign_eq_negative_iff]
  · simp only [pnlTokenView, classifySign_eq_negative_iff]

/-- C4 witness: the classification rule at concrete inputs. -/
theorem C4_witness :
    (classifySign "-5.2%" = .negative ↔ ("-5.2%").data.head? = some '-') ∧
    classifySign "-5.2%" ≠ .neutral ∧
    classifySign "0.00" = .positive ∧
    classifySign "-5.2%" = .negative ∧
    (overallPnlCard "-12.34").color =
      (if classifySign "-12.34" = .negative then .red else .green) ∧
    (overallPnlCard "-12.34").icon =
      (if classifySign "-12.34" = .negative then .arrowDownRight else .arrowUpRight) ∧
    (pnlPercentCard "5.00%").color =
      (if classifySign "5.00%" = .negative then .red else .green) ∧
    (pnlTokenView ("SOL", "-1.00")).colorClass =
      (if classifySign ("SOL", "-1.00").2 = .negative then "text-red-400"
       else "text-green-400") :=
  C4_sign_rule_uniform "-5.2%" "-12.34" "5.00%" ("SOL", "-1.00")

/-- A transaction with an empty `balanceChange` list. -/
def c5Tx : Transaction :=
  { balanceChange := [], blockNumber := 1, blockTime := "2024-01-01T00:00:00Z",
    contractLabel := { address := "addr", icon := "icon", name := "label" },
    fee := 5000, formattedBlockTime := "Jan 1", from_ := "walletA",
    mainAction := "transfer", status := true, to_ := "walletB", txHash := "hash" }

/-- C5 counterexample: with an empty `balanceChange`, the row's amount cell
is `balanceChange[0]?.uiAmount.toFixed(6)`, which short-circuits to
`undefined` and renders nothing — not the literal `"N/A"` the claim
states. -/
theorem C5_counterexample_amount_absent_not_na :
    (transactionRow c5Tx).amountText = none ∧
    (transactionRow c5Tx).amountText ≠ some "N/A" := by
  decide

/-- C5 (amended): for every transaction with an empty `balanceChange`, the
assembled row renders symbol and amount as absent (the optional chains
yield `undefined`, so nothing — in particular not `"N/A"` — is shown), the
logo falls back to the placeholder, and no exception is raised
(`transactionRow` is total; `?.` short-circuits before `.toFixed`). -/
theorem C5_amended_empty_balance_change_renders_absent (t : Transaction)
    (h : t.balanceChange = []) :
    (transactionRow t).symbolText = none ∧
    (transactionRow t).amountText = none ∧
    (transactionRow t).logoSrc = "/placeholder.svg" := by
  simp [transactionRow, h, jsOrElse]

/-- C5 witness: the amended statement at the concrete transaction. -/
theorem C5_witness :
    (transactionRow c5Tx).symbolText = none ∧
    (transactionRow c5Tx).amountText = none ∧
    (transactionRow c5Tx).logoSrc = "/placeholder.svg" :=
  C5_amended_empty_balance_change_renders_absent c5Tx (by decide)

/-- A snapshot whose only non-zero aggregate is a negative total value. -/
def c6Props : WalletAnalysisProps :=
  { totalValue := -1, tokenCount := 0, topTokens := [], recentTransactions := [],
    swapActivity := "No swap activity data available.", overallPNL := "0.00",
    pnlPercentage := "0.00%", pnlByToken := [], analysis := "" }

/-- C6 counterexample: `totalValue = -1` is non-zero, yet the component
still selects the no-portfolio-data state — "any one of the four
non-zero/non-empty implies the tabbed view" is false, because the gate
tests `totalValue > 0`, not `≠ 0`. -/
theorem C6_counterexample_negative_total_value :
    c6Props.totalValue ≠ 0 ∧ walletAnalysisView c6Props = .noData := by
  decide

/-- C6 (amended): when all four aggregates are zero/empty the no-data state
is selected (replacing the whole tabbed view, which is the other
constructor of the sum), and the tabbed view is rendered iff at least one
of: totalValue strictly positive, tokenCount strictly positive, topTokens
non-empty, recentTransactions non-empty — non-zero is not enough for the
numeric inputs, they must be positive. -/
theorem C6_amended_no_data_gate (p : WalletAnalysisProps) :
    (p.totalValue = 0 → p.tokenCount = 0 → p.topTokens = [] →
      p.recentTransactions = [] → walletAnalysisView p = .noData) ∧
    (walletAnalysisView p = .tabbed (assembleTabs p) ↔
      (0 < p.totalValue ∨ 0 < p.tokenCount ∨
        p.topTokens ≠ [] ∨ p.recentTransactions ≠ [])) := by
  constructor
  · intro h1 h2 h3 h4
    have hf : hasData p = false := by
      rw [Bool.eq_false_iff]
      intro h
      rcases (hasData_eq_true_iff p).mp h with h' | h' | h' | h' <;>
        simp [h1, h2, h3, h4] at h'
    rw [walletAnalysisView, hf]
    rfl
  · rw [walletAnalysisView, ← hasData_eq_true_iff]
    cases h : hasData p <;> simp

/-- C6 witness: the amended gate at the concrete negative-total snapshot. -/
theorem C6_witness :
    (c6Props.totalValue = 0 → c6Props.tokenCount = 0 → c6Props.topTokens = [] →
      c6Props.recentTransactions = [] → walletAnalysisView c6Props = .noData) ∧
    (walletAnalysisView c6Props = .tabbed (assembleTabs c6Props) ↔
      (0 < c6Props.totalValue ∨ 0 < c6Props.tokenCount ∨
        c6Props.topTokens ≠ [] ∨ c6Props.recentTransactions ≠ [])) :=
  C6_amended_no_data_gate c6Props

/-- C8: the Overall-PNL card (icon and color included) is a function of the
`overallPNL` text alone, and the PNL-% card of the `pnlPercentage` text
alone: across two runs whose props agree on the one input, the other card
is unchanged no matter how every other prop varies; concretely,
`overallPNL = "-12.34"` selects the down-arrow icon and red color. -/
theorem C8_pnl_cards_noninterference (p q : WalletAnalysisProps) :
    (p.overallPNL = q.overallPNL → (overviewCards p)[2]? = (overviewCards q)[2]?) ∧
    (p.pnlPercentage = q.pnlPercentage →
      (overviewCards p)[3]? = (overviewCards q)[3]?) ∧
    (overviewCards p)[2]? = some (overallPnlCard p.overallPNL) ∧
    (overviewCards p)[3]? = some (pnlPercentCard p.pnlPercentage) ∧
    (overallPnlCard "-12.34").icon = .arrowDownRight ∧
    (overallPnlCard "-12.34").color = .red := by
  refine ⟨fun h => ?_, fun h => ?_, rfl, rfl, by decide, by decide⟩
  · show some (overallPnlCard p.overallPNL) = some (overallPnlCard q.overallPNL)
    rw [h]
  · show some (pnlPercentCard p.pnlPercentage) = some (pnlPercentCard q.pnlPercentage)
    rw [h]

/-- Two concrete snapshots agreeing only on the PNL strings. -/
def c8PropsA : WalletAnalysisProps :=
  { totalValue := 100, tokenCount := 2, topTokens := [], recentTransactions := [],
    swapActivity := "No swap activity data available.", overallPNL := "-12.34",
    pnlPercentage := "5.00%", pnlByToken := [("SOL", "-1.00")], analysis := "a" }

/-- A second snapshot with the same PNL strings but different other props. -/
def c8PropsB : WalletAnalysisProps :=
  { totalValue := 7, tokenCount := 0, topTokens := [], recentTransactions := [],
    swapActivity := "x", overallPNL := "-12.34",
    pnlPercentage := "5.00%", pnlByToken := [], analysis := "b" }

/-- C8 witness: the noninterference statement at two concrete snapshots. -/
theorem C8_witness :
    (c8PropsA.overallPNL = c8PropsB.overallPNL →
      (overviewCards c8PropsA)[2]? = (overviewCards c8PropsB)[2]?) ∧
    (c8PropsA.pnlPercentage = c8PropsB.pnlPercentage →
      (overviewCards c8PropsA)[3]? = (overviewCards c8PropsB)[3]?) ∧
    (overviewCards c8PropsA)[2]? = some (overallPnlCard c8PropsA.overallPNL) ∧
    (overviewCards c8PropsA)[3]? = some (pnlPercentCard c8PropsA.pnlPercentage) ∧
    (overallPnlCard "-12.34").icon = .arrowDownRight ∧
    (overallPnlCard "-12.34").color = .red :=
  C8_pnl_cards_noninterference c8PropsA c8PropsB

/-- C9: when the logo image fails (per-instance `error` flag set), the
fallback badge shows exactly the symbol's first two characters uppercased;
the badge is a pure function of the symbol, and the fallback is
per-instance: in a list of `TokenLogo` instances, position i's render
depends only on position i's own (symbol, error) pair. -/
theorem C9_fallback_badge_deterministic_per_instance (s : String)
    (a b : List (String × Bool)) (i : Nat) (h : a[i]? = b[i]?) :
    tokenLogo s true = .fallbackBadge (String.mk ((s.data.take 2).map Char.toUpper)) ∧
    (a.map fun x => tokenLogo x.1 x.2)[i]? = (b.map fun x => tokenLogo x.1 x.2)[i]? := by
  refine ⟨rfl, ?_⟩
  rw [List.getElem?_map, List.getElem?_map, h]

/-- C9 witness: a failed "sol" logo shows "SO", and the render of instance
1 agrees across two instance lists that agree at position 1 (another
instance of the same symbol in a different error state notwithstanding). -/
theorem C9_witness :
    tokenLogo "sol" true =
      .fallbackBadge (String.mk ((("sol" : String)).data.take 2 |>.map Char.toUpper)) ∧
    ([("usdc", false), ("sol", true)].map fun x => tokenLogo x.1 x.2)[1]? =
      ([("sol", false), ("sol", true)].map fun x => tokenLogo x.1 x.2)[1]? :=
  C9_fallback_badge_deterministic_per_instance "sol"
    [("usdc", false), ("sol", true)] [("sol", false), ("sol", true)] 1 (by decide)

/-- C10: the no-data gate is strict: with a strictly negative `totalValue`,
the component shows the no-data state exactly when the other three inputs
are zero/empty — a negative total alone never makes the tabbed view
render, and it gates identically to a zero total. -/
theorem C10_negative_total_value_gates_as_zero (p : WalletAnalysisProps)
    (hneg : p.totalValue < 0) :
    (walletAnalysisView p = .noData ↔
      (p.tokenCount ≤ 0 ∧ p.topTokens = [] ∧ p.recentTransactions = [])) ∧
    hasData p = hasData { p with totalValue := 0 } := by
  have hz : ∀ v : Int, v ≤ 0 →
      (hasData { p with totalValue := v } = true ↔
        (0 < p.tokenCount ∨ p.topTokens ≠ [] ∨ p.recentTransactions ≠ [])) := by
    intro v hv
    rw [hasData_eq_true_iff]
    simp only []
    constructor
    · rintro (h | h | h | h)
      · exact absurd h (by omega)
      · exact Or.inl h
      · exact Or.inr (Or.inl h)
      · exact Or.inr (Or.inr h)
    · rintro (h | h | h)
      · exact Or.inr (Or.inl h)
      · exact Or.inr (Or.inr (Or.inl h))
      · exact Or.inr (Or.inr (Or.inr h))
  constructor
  · have hp : hasData p = true ↔
        (0 < p.tokenCount ∨ p.topTokens ≠ [] ∨ p.recentTransactions ≠ []) := by
      have := hz p.totalValue (le_of_lt hneg)
      simpa using this
    rw [walletAnalysisView]
    cases h : hasData p with
    | true =>
      simp only [if_true]
      constructor
      · intro hh; cases hh
      · intro hh
        rcases hp.mp h with h' | h' | h' <;> [omega; exact absurd hh.2.1 h'; exact absurd hh.2.2 h']
    | false =>
      simp only [Bool.false_eq_true, if_false]
      have hnot := (Bool.eq_false_iff.mp h)
      constructor
      · intro _
        refine ⟨?_, ?_, ?_⟩
        · by_contra hc
          exact hnot (hp.mpr (Or.inl (by omega)))
        · by_contra hc
          exact hnot (hp.mpr (Or.inr (Or.inl hc)))
        · by_contra hc
          exact hnot (hp.mpr (Or.inr (Or.inr hc)))
      · intro _; trivial
  · have h1 := hz p.totalValue (le_of_lt hneg)
    have h2 := hz 0 le_rfl
    have hp1 : hasData p = hasData { p with totalValue := p.totalValue } := by rfl
    rw [hp1]
    cases ha : hasData { p with totalValue := p.totalValue } <;>
      cases hb : hasData { p with totalValue := 0 }
    · rfl
    · exact absurd (h1.mpr (h2.mp hb)) (by simp [ha])
    · exact absurd (h2.mpr (h1.mp ha)) (by simp [hb])
    · rfl

/-- A snapshot with a strictly negative total and nothing else. -/
def c10Props : WalletAnalysisProps :=
  { totalValue := -3, tokenCount := 0, topTokens := [], recentTransactions := [],
    swapActivity := "No swap activity data available.", overallPNL := "0.00",
    pnlPercentage := "0.00%", pnlByToken := [], analysis := "" }

/-- C10 witness: the strict gate at the concrete negative-total snapshot. -/
theorem C10_witness :
    (walletAnalysisView c10Props = .noData ↔
      (c10Props.tokenCount ≤ 0 ∧ c10Props.topTokens = [] ∧
        c10Props.recentTransactions = [])) ∧
    hasData c10Props = hasData { c10Props with totalValue := 0 } :=
  C10_negative_total_value_gates_as_zero c10Props (by decide)

end SolAi
